import Mathlib

/-!
# Verification of the anju-gujiguji GPU particle system

Shallow embedding of the TypeScript sources of the repository:

* `src/textureLoader.ts` — the deduplicating asynchronous texture cache
  (`TextureLoader`), modelled as a state machine whose events are the atomic
  synchronous segments between `await` points of `loadTexture` and
  `_loadTextureInternal`;
* `src/config.ts` — constants;
* `src/renderer.ts` — `WebGPURenderer`: particle spawning (`addParticle`),
  the per-frame loop (`renderLoop`) and the ping-pong compute bind groups;
* `src/shaders.ts` — the compute kernel `computeWGSL main` (the Simulation
  Step), embedded over ℚ.

GPU buffers are modelled as total functions from particle index to record
values, and `device.queue.writeBuffer` as `Function.update` at the written
index.  The random samples drawn by the code (`Math.random()` products) and
the outcome of `fetch`/`createImageBitmap` are external inputs and appear as
parameters of the corresponding definitions.
-/

/- ### Constants from `src/config.ts` -/

def IMAGE_URLS : List String := [
  "/assets/images/normal_2-歯ギター_歯ギターあんじゅ.png",
  "/assets/images/normal-main_n.png",
  "/assets/images/normal-キャラ_杏珠.png",
  "/assets/images/normal-グループ 1_あんじゅ_あんじゅ.png",
  "/assets/images/normal-杏珠_目_２燃えてくる1.png",
  "/assets/images/normal-背景_アイコン_iconあんじゅ.png",
  "/assets/images/normal-背景_ステッカー_stkあんじゅ.png",
  "/assets/images/normal-背景_肩書_肩書あんじゅset_肩書あんじゅ.png",
  "/assets/images/ciallo.png"]

def MAX_PARTICLES : Nat := 10000

def WORKGROUP_SIZE : Nat := 64

def TEXTURE_SIZE : Nat := 1024

/- ### Texture loader (`src/textureLoader.ts`, class `TextureLoader`)

The two JS `Map`s of the class are embedded as association lists.  Keys are
only ever inserted when absent (both `set` calls are guarded by earlier
`has`-style checks in the same synchronous segment), so `Map.set` is a cons
and `Map.delete` is `eraseKey`. -/

/-- Association-list lookup, the embedding of `Map.get` / `Map.has`. -/
def lookupKey : List (String × Nat) → String → Option Nat
  | [], _ => none
  | (k, v) :: rest, url => if url = k then some v else lookupKey rest url

/-- Association-list removal, the embedding of `Map.delete`. -/
def eraseKey : List (String × Nat) → String → List (String × Nat)
  | [], _ => []
  | (k, v) :: rest, url =>
      if k = url then eraseKey rest url else (k, v) :: eraseKey rest url

/-- State of a `TextureLoader` instance.  `loadedTextures` maps a URL to the
`textureIndex` recorded in its `LoadedTexture`; `loadingPromises` maps a URL
with an in-flight `_loadTextureInternal` operation to the `textureIndex` that
operation captured at its start (`const textureIndex = this.nextTextureIndex`,
executed synchronously before the first `await`).  `uploads` is the history of
`device.queue.copyExternalImageToTexture` calls performed, as (url, layer)
pairs, used to count the fetch-and-upload operations actually performed. -/
structure LoaderState where
  loadedTextures : List (String × Nat)
  loadingPromises : List (String × Nat)
  nextTextureIndex : Nat
  maxTextures : Nat
  uploads : List (String × Nat)
deriving DecidableEq, Repr

/-- Result returned by the synchronous prefix of `loadTexture`. -/
inductive CallResult where
  /-- `url` was in `loadedTextures`: the cached `LoadedTexture` is returned. -/
  | cached (idx : Nat)
  /-- `url` was in `loadingPromises`: the registered pending promise is
  returned; no new load starts. -/
  | pending
  /-- `nextTextureIndex >= maxTextures`: the call throws
  `Texture array is full`. -/
  | capacityError
  /-- a new `_loadTextureInternal(url)` operation was started; it captured
  `idx = nextTextureIndex` and was registered in `loadingPromises`. -/
  | started (idx : Nat)
deriving DecidableEq, Repr

/-- The synchronous prefix of `TextureLoader.loadTexture(url)` (lines 37-57):
the `loadedTextures` check, the `loadingPromises` check, the capacity check,
and otherwise the start of `_loadTextureInternal(url)` — whose body runs
synchronously up to `await fetch(url)`, capturing
`textureIndex = nextTextureIndex` — followed by
`loadingPromises.set(url, loadingPromise)`. -/
def loadTextureCall (s : LoaderState) (url : String) : LoaderState × CallResult :=
  match lookupKey s.loadedTextures url with
  | some idx => (s, .cached idx)
  | none =>
    match lookupKey s.loadingPromises url with
    | some _ => (s, .pending)
    | none =>
      if s.maxTextures ≤ s.nextTextureIndex then (s, .capacityError)
      else
        ({ s with loadingPromises := (url, s.nextTextureIndex) :: s.loadingPromises },
          .started s.nextTextureIndex)

/-- Successful resumption of the in-flight operation for `url`
(`_loadTextureInternal` lines 84-104 after `createImageBitmap` resolves,
followed by `loadingPromises.delete(url)` in `loadTexture`):
`copyExternalImageToTexture` writes layer `textureIndex` (the index captured
at the start of the operation), `loadedTextures.set(url, ...)` records that
index, and `nextTextureIndex` is incremented.  If no operation for `url` is in
flight there is nothing to resume and the state is unchanged. -/
def loadComplete (s : LoaderState) (url : String) : LoaderState :=
  match lookupKey s.loadingPromises url with
  | none => s
  | some idx =>
    { s with
      uploads := s.uploads ++ [(url, idx)]
      loadedTextures := (url, idx) :: s.loadedTextures
      nextTextureIndex := s.nextTextureIndex + 1
      loadingPromises := eraseKey s.loadingPromises url }

/-- Failing resumption of the in-flight operation for `url` (the catch in
`_loadTextureInternal` rethrows, and the catch in `loadTexture` runs
`loadingPromises.delete(url)` and rethrows).  No upload is performed,
`loadedTextures` and `nextTextureIndex` are untouched. -/
def loadFail (s : LoaderState) (url : String) : LoaderState :=
  { s with loadingPromises := eraseKey s.loadingPromises url }

/-- An atomic event of the loader: a `loadTexture` call, or the resolution
(success or failure) of the in-flight operation of a URL. -/
inductive LoaderEvent where
  | call (url : String)
  | complete (url : String)
  | fail (url : String)
deriving DecidableEq, Repr

def loaderStep (s : LoaderState) : LoaderEvent → LoaderState
  | .call url => (loadTextureCall s url).1
  | .complete url => loadComplete s url
  | .fail url => loadFail s url

/-- Initial state of `new TextureLoader(device, textureArray, maxTextures)`. -/
def initLoader (maxTextures : Nat) : LoaderState :=
  { loadedTextures := []
    loadingPromises := []
    nextTextureIndex := 0
    maxTextures := maxTextures
    uploads := [] }

/-- The state after a sequence of loader events from the initial state. -/
def runLoader (maxTextures : Nat) (events : List LoaderEvent) : LoaderState :=
  events.foldl loaderStep (initLoader maxTextures)

/-- Number of `copyExternalImageToTexture` calls performed for `url`. -/
def uploadCount (s : LoaderState) (url : String) : Nat :=
  s.uploads.countP (fun p => p.1 == url)

/- ### Loader invariants -/

theorem lookupKey_eraseKey_self (m : List (String × Nat)) (k : String) :
    lookupKey (eraseKey m k) k = none := by
  induction m with
  | nil => rfl
  | cons p rest ih =>
    obtain ⟨k', v⟩ := p
    by_cases h : k' = k
    · simpa [eraseKey, h] using ih
    · simp [eraseKey, h, lookupKey, Ne.symm h, ih]

theorem lookupKey_eraseKey_of_none (m : List (String × Nat)) (k u : String)
    (h : lookupKey m u = none) : lookupKey (eraseKey m k) u = none := by
  induction m with
  | nil => rfl
  | cons p rest ih =>
    obtain ⟨k', v⟩ := p
    by_cases hk : k' = k
    · simp only [lookupKey] at h
      by_cases hu : u = k'
      · simp [hu] at h
      · simp [eraseKey, hk]
        exact ih (by simpa [hu] using h)
    · simp only [lookupKey] at h
      by_cases hu : u = k'
      · simp [hu] at h
      · simp [eraseKey, hk, lookupKey, hu]
        exact ih (by simpa [hu] using h)

/-- The invariant of reachable loader states: a resolved URL has no in-flight
operation, and the number of uploads performed for a URL is 1 if the URL is
resolved and 0 otherwise. -/
def LoaderInv (s : LoaderState) : Prop :=
  ∀ url : String,
    (lookupKey s.loadedTextures url ≠ none → lookupKey s.loadingPromises url = none) ∧
    uploadCount s url = (if lookupKey s.loadedTextures url = none then 0 else 1)

theorem loaderInv_init (maxTextures : Nat) : LoaderInv (initLoader maxTextures) := by
  intro url
  constructor
  · intro h; rfl
  · simp [initLoader, uploadCount, lookupKey]

theorem loaderInv_step (s : LoaderState) (e : LoaderEvent) (h : LoaderInv s) :
    LoaderInv (loaderStep s e) := by
  cases e with
  | call url =>
    show LoaderInv (loadTextureCall s url).1
    unfold loadTextureCall
    cases hl : lookupKey s.loadedTextures url with
    | some idx => simpa [hl] using h
    | none =>
      cases hp : lookupKey s.loadingPromises url with
      | some idx => simpa [hl, hp] using h
      | none =>
        by_cases hc : s.maxTextures ≤ s.nextTextureIndex
        · simpa [hl, hp, hc] using h
        · simp only [hl, hp, hc, if_false]
          intro u
          refine ⟨?_, ?_⟩
          · intro hu
            have h1 := (h u).1 hu
            simp only [lookupKey]
            have hne : u ≠ url := by
              intro he; rw [he] at hu; exact hu hl
            simp [hne, h1]
          · exact (h u).2
  | complete url =>
    show LoaderInv (loadComplete s url)
    unfold loadComplete
    cases hp : lookupKey s.loadingPromises url with
    | none => exact h
    | some idx =>
      have hl : lookupKey s.loadedTextures url = none := by
        by_contra hne
        have := (h url).1 hne
        rw [this] at hp; exact Option.noConfusion hp
      intro u
      by_cases hu : u = url
      · subst hu
        refine ⟨?_, ?_⟩
        · intro _
          exact lookupKey_eraseKey_self _ _
        · have hcount : uploadCount s u = 0 := by
            have := (h u).2
            simpa [hl] using this
          simp [uploadCount, List.countP_append, lookupKey] at hcount ⊢
          simpa [uploadCount] using hcount
      · refine ⟨?_, ?_⟩
        · intro hne
          have hne' : lookupKey s.loadedTextures u ≠ none := by
            simpa [lookupKey, hu] using hne
          exact lookupKey_eraseKey_of_none _ _ _ ((h u).1 hne')
        · have := (h u).2
          simp only [uploadCount, List.countP_append] at *
          have hb : ((url, idx).1 == u) = false := by
            simp [Ne.symm hu]
          simp [lookupKey, hu, hb, this]
  | fail url =>
    show LoaderInv (loadFail s url)
    unfold loadFail
    intro u
    refine ⟨?_, (h u).2⟩
    intro hne
    exact lookupKey_eraseKey_of_none _ _ _ ((h u).1 hne)

theorem loaderInv_foldl (events : List LoaderEvent) :
    ∀ s : LoaderState, LoaderInv s → LoaderInv (events.foldl loaderStep s) := by
  induction events with
  | nil => intro s hs; exact hs
  | cons e rest ih =>
    intro s hs
    exact ih (loaderStep s e) (loaderInv_step s e hs)

theorem loaderInv_run (maxTextures : Nat) (events : List LoaderEvent) :
    LoaderInv (runLoader maxTextures events) :=
  loaderInv_foldl events (initLoader maxTextures) (loaderInv_init maxTextures)

/- ### Claim C1 -/

/-- C1: for every sequence of texture-load requests, at most one
fetch-and-decode-and-upload operation is performed per URL: the number of
`copyExternalImageToTexture` operations performed for a URL is at most 1,
it is exactly 1 once the URL has resolved (however many times and however
concurrently it was requested), and a `loadTexture(url)` call made while an
earlier load of `url` is still pending returns the already-registered pending
promise without changing the state or starting a new load. -/
theorem c1_texture_load_dedup (maxTextures : Nat) (events : List LoaderEvent)
    (url : String) :
    uploadCount (runLoader maxTextures events) url ≤ 1 ∧
    (lookupKey (runLoader maxTextures events).loadedTextures url ≠ none →
      uploadCount (runLoader maxTextures events) url = 1) ∧
    (lookupKey (runLoader maxTextures events).loadingPromises url ≠ none →
      loadTextureCall (runLoader maxTextures events) url
        = (runLoader maxTextures events, CallResult.pending)) := by
  have hinv := loaderInv_run maxTextures events url
  set s := runLoader maxTextures events with hs
  obtain ⟨h1, h2⟩ := hinv
  refine ⟨?_, ?_, ?_⟩
  · rw [h2]; split <;> omega
  · intro hne
    rw [h2]
    simp [hne]
  · intro hpend
    have hl : lookupKey s.loadedTextures url = none := by
      by_contra hne
      exact hpend (h1 hne)
    obtain ⟨v, hv⟩ := Option.ne_none_iff_exists'.mp hpend
    unfold loadTextureCall
    rw [hl, hv]

/-- Witness for C1 at concrete traces: after `[call u, complete u]` the URL
is resolved and exactly one upload was performed; after `[call u]` the URL is
pending and a second call returns the pending promise with the state
unchanged. -/
theorem c1_texture_load_dedup_witness :
    uploadCount (runLoader 9 [LoaderEvent.call "u", LoaderEvent.complete "u"]) "u" = 1 ∧
    loadTextureCall (runLoader 9 [LoaderEvent.call "u"]) "u"
      = (runLoader 9 [LoaderEvent.call "u"], CallResult.pending) :=
  ⟨(c1_texture_load_dedup 9 [LoaderEvent.call "u", LoaderEvent.complete "u"] "u").2.1
      (by decide),
   (c1_texture_load_dedup 9 [LoaderEvent.call "u"] "u").2.2 (by decide)⟩

/- ### Claim C2 -/

/-- The first two entries of `IMAGE_URLS`, used as concrete distinct URLs. -/
def urlA : String := "/assets/images/normal_2-歯ギター_歯ギターあんじゅ.png"

def urlB : String := "/assets/images/normal-main_n.png"

/-- Trace in which the loads of two distinct URLs overlap: both calls happen
before either fetch resolves. -/
def c2Trace : List LoaderEvent :=
  [LoaderEvent.call urlA, LoaderEvent.call urlB,
   LoaderEvent.complete urlA, LoaderEvent.complete urlB]

/-- C2 fails on the code: `_loadTextureInternal` captures
`textureIndex = nextTextureIndex` when the operation starts but increments
`nextTextureIndex` only after the fetch succeeds, so two overlapping loads of
distinct URLs both capture the same index.  In the trace where `urlA` and
`urlB` are requested before either fetch resolves, both URLs resolve with slot
index 0 and both bitmaps are uploaded to texture-array layer 0. -/
theorem c2_shared_slot_on_concurrent_loads :
    urlA ≠ urlB ∧
    lookupKey (runLoader IMAGE_URLS.length c2Trace).loadedTextures urlA = some 0 ∧
    lookupKey (runLoader IMAGE_URLS.length c2Trace).loadedTextures urlB = some 0 ∧
    (runLoader IMAGE_URLS.length c2Trace).uploads = [(urlA, 0), (urlB, 0)] := by
  decide

/- ### Claim C5 -/

/-- C5 fails on the code: slot indices are not consumed by failed attempts.
The first `loadTexture(urlA)` attempt captures slot index 0; after it fails, a
retry captures slot index 0 again (the counter was never incremented), and the
successful retry resolves with index 0 — the very index already assigned to
the failed attempt, not a fresh never-previously-used one. -/
theorem c5_failed_slot_index_is_reused :
    lookupKey (runLoader IMAGE_URLS.length
      [LoaderEvent.call urlA]).loadingPromises urlA = some 0 ∧
    lookupKey (runLoader IMAGE_URLS.length
      [LoaderEvent.call urlA, LoaderEvent.fail urlA,
       LoaderEvent.call urlA]).loadingPromises urlA = some 0 ∧
    lookupKey (runLoader IMAGE_URLS.length
      [LoaderEvent.call urlA, LoaderEvent.fail urlA, LoaderEvent.call urlA,
       LoaderEvent.complete urlA]).loadedTextures urlA = some 0 := by
  decide

/-- C5 amended: the slot counter `nextTextureIndex` increments only on a
successful upload and never decreases; a failed attempt does not consume the
index it captured.  Consequently a retry of a URL whose load failed captures
the then-current `nextTextureIndex` — the same index the failed attempt
captured whenever no other load completed in between — rather than a fresh
never-previously-used index. -/
theorem c5_amended_failure_consumes_no_slot (s : LoaderState) (url : String)
    (i : Nat) (_hpend : lookupKey s.loadingPromises url = some i)
    (hnl : lookupKey s.loadedTextures url = none)
    (hcap : s.nextTextureIndex < s.maxTextures) :
    (loadFail s url).nextTextureIndex = s.nextTextureIndex ∧
    (loadTextureCall (loadFail s url) url).2
      = CallResult.started s.nextTextureIndex ∧
    lookupKey (loadTextureCall (loadFail s url) url).1.loadingPromises url
      = some s.nextTextureIndex := by
  have herase : lookupKey (eraseKey s.loadingPromises url) url = none :=
    lookupKey_eraseKey_self _ _
  refine ⟨rfl, ?_, ?_⟩ <;>
    simp [loadFail, loadTextureCall, hnl, herase, not_le.mpr hcap, lookupKey]

/-- Loader state with one in-flight attempt for `"u"` (captured index 0),
used as the concrete input of the C5 witness. -/
def c5WitnessState : LoaderState :=
  { loadedTextures := []
    loadingPromises := [("u", 0)]
    nextTextureIndex := 0
    maxTextures := 9
    uploads := [] }

/-- Witness for the amended C5 at a concrete state: one failed in-flight
attempt for `"u"` with captured index 0, retried. -/
theorem c5_amended_failure_consumes_no_slot_witness :
    (loadFail c5WitnessState "u").nextTextureIndex = 0 ∧
    (loadTextureCall (loadFail c5WitnessState "u") "u").2 = CallResult.started 0 := by
  have h := c5_amended_failure_consumes_no_slot c5WitnessState "u" 0
    (by decide) (by decide) (by decide)
  exact ⟨h.1, h.2.1⟩

/- ### Particle data (`src/renderer.ts`, `src/shaders.ts`)

Shader floats are embedded as ℚ; every constant appearing in the sources
(`0.5`, `0.3`, `1.0`) is exactly representable.  GPU buffers are total
functions from particle index to record value; `device.queue.writeBuffer` at
particle offset `i * STRIDE` is `Function.update` at `i`.  The two dynamic
buffers `this.dynamicBuffers[0] / [1]` are a function from buffer index. -/

structure Vec2 where
  x : ℚ
  y : ℚ
deriving DecidableEq, Repr

/-- The `DynamicParticle` record of `computeWGSL`: `pos`, `vel`, `rotation`,
`padding` (24 bytes, `DYNAMIC_PARTICLE_STRIDE`). -/
structure DynamicParticle where
  pos : Vec2
  vel : Vec2
  rotation : ℚ
  padding : ℚ
deriving DecidableEq, Repr

/-- The `StaticParticle` record of `computeWGSL`: `scale`, `aspectRatio`
(field name `aspect` here), `angularVel`, `texIndex`, `uvScale`, `padding`
(32 bytes, `STATIC_PARTICLE_STRIDE`). -/
structure StaticParticle where
  scale : ℚ
  aspect : ℚ
  angularVel : ℚ
  texIndex : Nat
  uvScale : Vec2
  padding : Vec2
deriving DecidableEq, Repr

/-- Zero-initialised dynamic record (GPU buffers start zeroed). -/
def zeroDynamic : DynamicParticle :=
  { pos := ⟨0, 0⟩, vel := ⟨0, 0⟩, rotation := 0, padding := 0 }

/-- Zero-initialised static record (GPU buffers start zeroed). -/
def zeroStatic : StaticParticle :=
  { scale := 0, aspect := 0, angularVel := 0, texIndex := 0,
    uvScale := ⟨0, 0⟩, padding := ⟨0, 0⟩ }

/-- Failure observed by a spawn attempt when `loadTexture` rejects: either a
fetch/decode failure or the `Texture array is full` capacity error. -/
inductive LoadError where
  | resourceLoadFailure
  | capacityExceeded
deriving DecidableEq, Repr

/-- The `LoadedTexture` value consumed by `addParticle`: the resolved
`textureIndex` and the bitmap dimensions. -/
structure LoadedTex where
  textureIndex : Nat
  bitmapWidth : ℚ
  bitmapHeight : ℚ
deriving DecidableEq, Repr

/-- Renderer state touched by spawning and the frame loop.
`dynamicBuffers b` is `this.dynamicBuffers[b]` for `b = 0, 1`;
`staticBuffer` is `this.staticBuffer`. -/
structure RendererState where
  particleCount : Nat
  dynamicBuffers : Nat → Nat → DynamicParticle
  staticBuffer : Nat → StaticParticle
  frame : Nat

/-- The renderer state right after `createAssets` / `createPipelines`. -/
def initRenderer : RendererState :=
  { particleCount := 0
    dynamicBuffers := fun _ _ => zeroDynamic
    staticBuffer := fun _ => zeroStatic
    frame := 0 }

/-- External inputs of one iteration of the `while` loop of `addParticle`:
the outcome of `await this.textureLoader.loadTexture(url)` and the random
samples of the iteration.  `velX` stands for `Math.cos(velAngle) * velSpeed`,
`velY` for `Math.sin(velAngle) * velSpeed`, and `angularVel` for
`(Math.random() - 0.5) * 5.0`. -/
structure SpawnInput where
  loadResult : Except LoadError LoadedTex
  velX : ℚ
  velY : ℚ
  angularVel : ℚ

/-- The `dynamicData` array built by a spawn iteration
(`renderer.ts` lines 298-306): origin position, sampled velocity, zero
rotation, zero padding. -/
def mkDynamicData (inp : SpawnInput) : DynamicParticle :=
  { pos := ⟨0, 0⟩
    vel := ⟨inp.velX, inp.velY⟩
    rotation := 0
    padding := 0 }

/-- The `staticData` array built by a spawn iteration
(`renderer.ts` lines 309-318): fixed scale `0.3`, aspect ratio and uvScale
from the bitmap dimensions, sampled angular velocity, resolved texture
index. -/
def mkStaticData (tex : LoadedTex) (inp : SpawnInput) : StaticParticle :=
  { scale := 3/10
    aspect := tex.bitmapWidth / tex.bitmapHeight
    angularVel := inp.angularVel
    texIndex := tex.textureIndex
    uvScale := ⟨tex.bitmapWidth / (TEXTURE_SIZE : ℚ),
                tex.bitmapHeight / (TEXTURE_SIZE : ℚ)⟩
    padding := ⟨0, 0⟩ }

/-- One iteration of the `while` loop of `addParticle` (the `try` block,
`renderer.ts` lines 294-343): if `loadTexture` rejected, the `catch` observes
the error (second component) and no state is committed; if it resolved, the
dynamic data is written into both dynamic buffers and the static data into
the static buffer at index `particleCount`, and `particleCount` is
incremented. -/
def spawnIteration (s : RendererState) (inp : SpawnInput) :
    RendererState × Option LoadError :=
  match inp.loadResult with
  | .error e => (s, some e)
  | .ok tex =>
    let dynamicData := mkDynamicData inp
    let staticData := mkStaticData tex inp
    let buffers1 := Function.update s.dynamicBuffers 0
      (Function.update (s.dynamicBuffers 0) s.particleCount dynamicData)
    let buffers2 := Function.update buffers1 1
      (Function.update (buffers1 1) s.particleCount dynamicData)
    ({ s with
        dynamicBuffers := buffers2
        staticBuffer := Function.update s.staticBuffer s.particleCount staticData
        particleCount := s.particleCount + 1 }, none)

/-- `WebGPURenderer.addParticle` (`renderer.ts` lines 286-345), with each
iteration of its loop run to completion before any other spawn call executes.
The `MAX_PARTICLES` guard is checked once, before the loop; the loop then
performs one spawn iteration per element of `inputs` — in the source
`inputs.length = Math.round(Math.random() * 3 + 2.5)`, a value in
`{3, 4, 5}`. -/
def addParticle (s : RendererState) (inputs : List SpawnInput) : RendererState :=
  if MAX_PARTICLES ≤ s.particleCount then s
  else inputs.foldl (fun st inp => (spawnIteration st inp).1) s

/-- A sequence of `addParticle` calls, each run to completion before the
next starts. -/
def runSpawnCalls (s : RendererState) (calls : List (List SpawnInput)) :
    RendererState :=
  calls.foldl addParticle s

/- ### Claim C9 -/

/-- C9: a spawn attempt whose texture resolution fails is abandoned
atomically — the renderer state (both dynamic buffers, the static buffer,
`particleCount`, hence every already-live particle and the frame loop) is
exactly the state before the attempt, and the failure is reported to the
spawn attempt that awaited the load (the `catch` in `addParticle`). -/
theorem c9_failed_spawn_commits_nothing (s : RendererState) (inp : SpawnInput)
    (e : LoadError) (h : inp.loadResult = Except.error e) :
    spawnIteration s inp = (s, some e) := by
  unfold spawnIteration
  rw [h]

/-- Concrete failing spawn input for the C9 witness. -/
def failingSpawnInput : SpawnInput :=
  { loadResult := Except.error LoadError.resourceLoadFailure
    velX := 0, velY := 0, angularVel := 0 }

/-- Witness for C9 at a concrete input: a fetch failure leaves the initial
renderer state untouched and is reported. -/
theorem c9_failed_spawn_commits_nothing_witness :
    spawnIteration initRenderer failingSpawnInput
      = (initRenderer, some LoadError.resourceLoadFailure) :=
  c9_failed_spawn_commits_nothing initRenderer failingSpawnInput
    LoadError.resourceLoadFailure rfl

/- ### Claim C3 -/

/-- A spawn-loop input whose load succeeds (any resolved texture works; the
concrete one uses index 0 and a 100x100 bitmap). -/
def goodSpawnInput : SpawnInput :=
  { loadResult := Except.ok { textureIndex := 0, bitmapWidth := 100, bitmapHeight := 100 }
    velX := 0, velY := 0, angularVel := 0 }

/-- An `addParticle` call whose loop runs `n` iterations, all of whose
texture loads succeed.  In the source `n = Math.round(Math.random() * 3 + 2.5)`
is 3, 4 or 5. -/
def goodCall (n : Nat) : List SpawnInput := List.replicate n goodSpawnInput

theorem spawnIteration_ok_particleCount (s : RendererState) (inp : SpawnInput)
    (tex : LoadedTex) (h : inp.loadResult = Except.ok tex) :
    ((spawnIteration s inp).1).particleCount = s.particleCount + 1 := by
  unfold spawnIteration
  rw [h]

theorem foldl_goodSpawn_particleCount (n : Nat) :
    ∀ s : RendererState,
      ((List.replicate n goodSpawnInput).foldl
        (fun st inp => (spawnIteration st inp).1) s).particleCount
        = s.particleCount + n := by
  induction n with
  | zero => intro s; simp
  | succ m ih =>
    intro s
    rw [List.replicate_succ, List.foldl_cons, ih]
    rw [spawnIteration_ok_particleCount s goodSpawnInput _ rfl]
    omega

theorem addParticle_good_particleCount (s : RendererState) (n : Nat)
    (h : s.particleCount < MAX_PARTICLES) :
    (addParticle s (goodCall n)).particleCount = s.particleCount + n := by
  unfold addParticle goodCall
  rw [if_neg (not_le.mpr h)]
  exact foldl_goodSpawn_particleCount n s

theorem runSpawnCalls_goodCall5_particleCount (k : Nat) :
    ∀ s : RendererState, s.particleCount + 5 * k ≤ MAX_PARTICLES →
      (runSpawnCalls s (List.replicate k (goodCall 5))).particleCount
        = s.particleCount + 5 * k := by
  induction k with
  | zero => intro s _; simp [runSpawnCalls]
  | succ m ih =>
    intro s h
    have hM : MAX_PARTICLES = 10000 := rfl
    have hlt : s.particleCount < MAX_PARTICLES := by omega
    rw [List.replicate_succ]
    show (runSpawnCalls (addParticle s (goodCall 5))
      (List.replicate m (goodCall 5))).particleCount = _
    rw [ih (addParticle s (goodCall 5))
      (by rw [addParticle_good_particleCount s 5 hlt]; omega)]
    rw [addParticle_good_particleCount s 5 hlt]
    omega

/-- The spawn-call sequence refuting C3: 1999 calls whose loops each spawn 5
particles (reaching 9995), one call spawning 4 (reaching 9999), then one more
call spawning 5 — the guard passes at 9999 and the count reaches 10004. -/
def c3Calls : List (List SpawnInput) :=
  List.replicate 1999 (goodCall 5) ++ [goodCall 4, goodCall 5]

/-- C3 fails on the code: `addParticle` checks `particleCount >= MAX_PARTICLES`
once, before its spawn loop, and the loop (3 to 5 iterations) never rechecks,
so a call passing the guard at `particleCount = 9999` pushes the count to
10004, exceeding `MAX_PARTICLES = 10000`.  All loop lengths used (5 and 4) are
values `Math.round(Math.random() * 3 + 2.5)` can take. -/
theorem c3_particle_count_exceeds_max :
    MAX_PARTICLES < (runSpawnCalls initRenderer c3Calls).particleCount ∧
    (runSpawnCalls initRenderer c3Calls).particleCount = 10004 := by
  have hM : MAX_PARTICLES = 10000 := rfl
  have h0 : initRenderer.particleCount = 0 := rfl
  have h1 : (runSpawnCalls initRenderer
      (List.replicate 1999 (goodCall 5))).particleCount = 9995 := by
    have := runSpawnCalls_goodCall5_particleCount 1999 initRenderer
      (by rw [h0, hM]; omega)
    rw [this, h0]
  have hsplit : runSpawnCalls initRenderer c3Calls
      = addParticle (addParticle (runSpawnCalls initRenderer
          (List.replicate 1999 (goodCall 5))) (goodCall 4)) (goodCall 5) := by
    unfold c3Calls runSpawnCalls
    rw [List.foldl_append, List.foldl_cons, List.foldl_cons, List.foldl_nil]
  have h2 : (addParticle (runSpawnCalls initRenderer
      (List.replicate 1999 (goodCall 5))) (goodCall 4)).particleCount = 9999 := by
    rw [addParticle_good_particleCount _ 4 (by omega), h1]
  have h3 : (runSpawnCalls initRenderer c3Calls).particleCount = 10004 := by
    rw [hsplit, addParticle_good_particleCount _ 5 (by omega), h2]
  exact ⟨by omega, h3⟩

/- ### Simulation Step (`src/shaders.ts`, `computeWGSL`) -/

/-- Uniform block uploaded each frame (`renderLoop` lines 364-370):
`deltaTime`, `particleCount`, and the canvas aspect ratio
(`uniforms.aspectRatio` in the shader, field `aspect` here). -/
structure Uniforms where
  deltaTime : ℚ
  particleCount : Nat
  aspect : ℚ
deriving DecidableEq, Repr

/-- `let half_height = s.scale * 0.5;` of `computeWGSL main`. -/
def half_height (s : StaticParticle) : ℚ := s.scale * (1/2)

/-- `let half_width = half_height * s.aspectRatio;` of `computeWGSL main`. -/
def half_width (s : StaticParticle) : ℚ := half_height s * s.aspect

/-- The body of `computeWGSL main` for one in-range invocation: integrate
position and rotation, then boundary reflection per axis against
`bound_x = uniforms.aspectRatio` and `bound_y = 1.0`, writing `pos`, `vel`,
`rotation` and zero `padding` to the output record. -/
def computeMainBody (u : Uniforms) (d_in : DynamicParticle)
    (s : StaticParticle) : DynamicParticle :=
  let pos : Vec2 := ⟨d_in.pos.x + d_in.vel.x * u.deltaTime,
                     d_in.pos.y + d_in.vel.y * u.deltaTime⟩
  let rotation : ℚ := d_in.rotation + s.angularVel * u.deltaTime
  let bound_x : ℚ := u.aspect
  let bound_y : ℚ := 1
  let xOut : ℚ × ℚ :=
    if pos.x - half_width s < -bound_x then
      (-bound_x + half_width s, |d_in.vel.x|)
    else if pos.x + half_width s > bound_x then
      (bound_x - half_width s, -|d_in.vel.x|)
    else (pos.x, d_in.vel.x)
  let yOut : ℚ × ℚ :=
    if pos.y - half_height s < -bound_y then
      (-bound_y + half_height s, |d_in.vel.y|)
    else if pos.y + half_height s > bound_y then
      (bound_y - half_height s, -|d_in.vel.y|)
    else (pos.y, d_in.vel.y)
  { pos := ⟨xOut.1, yOut.1⟩
    vel := ⟨xOut.2, yOut.2⟩
    rotation := rotation
    padding := 0 }

/-- One compute invocation of `computeWGSL main`
(`if (index >= uniforms.particleCount) { return; }`): an invocation whose
`global_id.x` is at or beyond `particleCount` returns before writing
anything, leaving the output buffer as it was; an in-range invocation writes
the stepped record at its own index only. -/
def computeMainInvocation (u : Uniforms) (dynIn : Nat → DynamicParticle)
    (staticData : Nat → StaticParticle) (dynOut : Nat → DynamicParticle)
    (index : Nat) : Nat → DynamicParticle :=
  if u.particleCount ≤ index then dynOut
  else Function.update dynOut index
    (computeMainBody u (dynIn index) (staticData index))

/-- `Math.ceil(this.particleCount / WORKGROUP_SIZE)` of `renderLoop`. -/
def numWorkgroups (particleCount : Nat) : Nat :=
  (particleCount + WORKGROUP_SIZE - 1) / WORKGROUP_SIZE

/-- The whole compute dispatch
(`dispatchWorkgroups(Math.ceil(particleCount / WORKGROUP_SIZE))` with
`@workgroup_size(64)`): invocations `0 .. numWorkgroups * 64 - 1` each run
`main`.  Every invocation writes at most its own index, so the invocations
commute and are folded in index order. -/
def dispatchSim (u : Uniforms) (dynIn : Nat → DynamicParticle)
    (staticData : Nat → StaticParticle) (dynOut : Nat → DynamicParticle) :
    Nat → DynamicParticle :=
  (List.range (numWorkgroups u.particleCount * WORKGROUP_SIZE)).foldl
    (fun acc index => computeMainInvocation u dynIn staticData acc index) dynOut

/- ### Ping-pong bind groups and the frame loop (`src/renderer.ts`) -/

/-- A compute bind group, reduced to which dynamic buffer each buffer binding
designates: binding 0 (`dynamic_in`, read-only) and binding 1 (`dynamic_out`,
read-write).  Binding 2 is always `staticBuffer` (read-only) and binding 3
the uniforms. -/
structure ComputeBindGroup where
  readBuffer : Nat
  writeBuffer : Nat
deriving DecidableEq, Repr

/-- `this.computeBindGroups` (`createPipelines`, lines 255-274): element 0
reads `dynamicBuffers[0]` and writes `dynamicBuffers[1]`; element 1 reads
`dynamicBuffers[1]` and writes `dynamicBuffers[0]`. -/
def computeBindGroups : List ComputeBindGroup :=
  [{ readBuffer := 0, writeBuffer := 1 }, { readBuffer := 1, writeBuffer := 0 }]

/-- The bind group the Simulation Step of a frame uses:
`this.computeBindGroups[this.frame % 2]` (`renderLoop` line 377). -/
def simBindGroup (frame : Nat) : ComputeBindGroup :=
  computeBindGroups.getD (frame % 2) { readBuffer := 0, writeBuffer := 1 }

/-- The dynamic buffer the Render Pass of a frame binds as vertex buffer 0:
`this.dynamicBuffers[(this.frame + 1) % 2]` (`renderLoop` line 395). -/
def renderVertexBuffer (frame : Nat) : Nat := (frame + 1) % 2

/-- One `renderLoop` tick: build the uniforms from the current state, skip
the compute pass when `particleCount = 0`, otherwise dispatch the Simulation
Step through `computeBindGroups[frame % 2]` (reading its `readBuffer`,
rewriting its `writeBuffer`), then advance `frame`.  `deltaTime` and the
canvas aspect ratio are external inputs of the tick. -/
def renderFrame (s : RendererState) (deltaTime aspect : ℚ) : RendererState :=
  let u : Uniforms :=
    { deltaTime := deltaTime, particleCount := s.particleCount, aspect := aspect }
  let bg := simBindGroup s.frame
  let buffers :=
    if 0 < s.particleCount then
      Function.update s.dynamicBuffers bg.writeBuffer
        (dispatchSim u (s.dynamicBuffers bg.readBuffer) s.staticBuffer
          (s.dynamicBuffers bg.writeBuffer))
    else s.dynamicBuffers
  { s with dynamicBuffers := buffers, frame := s.frame + 1 }

/-- A sequence of frames, each with its own `deltaTime` and aspect ratio. -/
def runFrames (s : RendererState) : List (ℚ × ℚ) → RendererState
  | [] => s
  | (dt, a) :: rest => runFrames (renderFrame s dt a) rest

/- ### Claim C4 -/

/-- C4: in frame `N` the Simulation Step reads dynamic buffer `N % 2` and
writes dynamic buffer `(N+1) % 2`; the Render Pass of the same frame binds
buffer `(N+1) % 2` — exactly the buffer the simulation just wrote — and the
buffer written is never the buffer the same frame's simulation reads. -/
theorem c4_ping_pong_buffer_roles (n : Nat) :
    (simBindGroup n).readBuffer = n % 2 ∧
    (simBindGroup n).writeBuffer = (n + 1) % 2 ∧
    renderVertexBuffer n = (n + 1) % 2 ∧
    renderVertexBuffer n = (simBindGroup n).writeBuffer ∧
    (simBindGroup n).writeBuffer ≠ (simBindGroup n).readBuffer := by
  rcases Nat.mod_two_eq_zero_or_one n with h | h <;>
    · have h' : (n + 1) % 2 = 1 - n % 2 := by omega
      simp [simBindGroup, computeBindGroups, renderVertexBuffer, h, h']

/-- Witness for C4 at the concrete frame 7: the step reads buffer 1, writes
buffer 0, and the render pass binds buffer 0. -/
theorem c4_ping_pong_buffer_roles_witness :
    (simBindGroup 7).readBuffer = 1 ∧ (simBindGroup 7).writeBuffer = 0 ∧
    renderVertexBuffer 7 = 0 := by
  have h := c4_ping_pong_buffer_roles 7
  exact ⟨h.1, h.2.1, h.2.2.1⟩

/- ### Claim C10 -/

theorem computeMainInvocation_out_of_range (u : Uniforms)
    (dynIn : Nat → DynamicParticle) (staticData : Nat → StaticParticle)
    (dynOut : Nat → DynamicParticle) (index i : Nat)
    (h : u.particleCount ≤ i) :
    computeMainInvocation u dynIn staticData dynOut index i = dynOut i := by
  unfold computeMainInvocation
  by_cases hj : u.particleCount ≤ index
  · rw [if_pos hj]
  · rw [if_neg hj]
    exact Function.update_noteq (by omega) _ _

/-- C10: every compute invocation whose index is at or beyond the
`particleCount` uniform returns before writing, so a Simulation Step dispatch
leaves every entry of the output dynamic buffer at index `>= particleCount`
exactly as it was — a freshly pre-seeded spawn entry not yet covered by the
dispatch is never overwritten. -/
theorem c10_dispatch_preserves_entries_beyond_count (u : Uniforms)
    (dynIn : Nat → DynamicParticle) (staticData : Nat → StaticParticle)
    (dynOut : Nat → DynamicParticle) (i : Nat) (h : u.particleCount ≤ i) :
    dispatchSim u dynIn staticData dynOut i = dynOut i := by
  unfold dispatchSim
  generalize List.range (numWorkgroups u.particleCount * WORKGROUP_SIZE) = l
  induction l generalizing dynOut with
  | nil => rfl
  | cons j rest ih =>
    rw [List.foldl_cons, ih]
    exact computeMainInvocation_out_of_range u dynIn staticData dynOut j i h

/-- Uniforms of the C10 witness: one live particle. -/
def c10Uniforms : Uniforms := { deltaTime := 1/60, particleCount := 1, aspect := 16/9 }

/-- Witness for C10 at a concrete dispatch: with `particleCount = 1`, the
output buffer entry at index 3 is untouched. -/
theorem c10_dispatch_preserves_entries_beyond_count_witness :
    dispatchSim c10Uniforms (fun _ => zeroDynamic) (fun _ => zeroStatic)
      (fun _ => zeroDynamic) 3 = zeroDynamic :=
  c10_dispatch_preserves_entries_beyond_count c10Uniforms
    (fun _ => zeroDynamic) (fun _ => zeroStatic) (fun _ => zeroDynamic) 3
    (by decide)

/- ### Claim C8 -/

/-- C8: the static fields written at spawn time are unchanged by any number
of Simulation Steps — the compute pass rewrites only the dynamic write
buffer designated by the frame's bind group, and the static buffer (bound
read-only, binding 2) is identical, entry by entry, after any sequence of
frames. -/
theorem c8_static_data_unchanged_by_frames (s : RendererState)
    (frames : List (ℚ × ℚ)) (i : Nat) :
    (runFrames s frames).staticBuffer i = s.staticBuffer i := by
  induction frames generalizing s with
  | nil => rfl
  | cons f rest ih =>
    obtain ⟨dt, a⟩ := f
    show (runFrames (renderFrame s dt a) rest).staticBuffer i = _
    rw [ih (renderFrame s dt a)]
    rfl

/- ### Claim C6 -/

/-- C6: a particle whose half-extent fits in the viewport
(`half_width <= canvasAspectRatio` and `half_height <= 1`) has, after any
single Simulation Step, a position inside the viewport bounds
`[-canvasAspectRatio, canvasAspectRatio] x [-1, 1]` shrunk by its own
half-extent on each axis — the particle is fully inside after the step. -/
theorem c6_step_keeps_particle_inside_viewport (u : Uniforms)
    (d : DynamicParticle) (s : StaticParticle)
    (hwb : half_width s ≤ u.aspect) (hhb : half_height s ≤ 1) :
    -(u.aspect - half_width s) ≤ (computeMainBody u d s).pos.x ∧
    (computeMainBody u d s).pos.x ≤ u.aspect - half_width s ∧
    -(1 - half_height s) ≤ (computeMainBody u d s).pos.y ∧
    (computeMainBody u d s).pos.y ≤ 1 - half_height s := by
  unfold computeMainBody
  dsimp only
  refine ⟨?_, ?_, ?_, ?_⟩ <;> split_ifs <;> dsimp only <;> linarith

/-- Uniforms of the C6/C7 witnesses: `deltaTime = 1`, one live particle,
canvas aspect ratio `16/9`. -/
def cWitnessUniforms : Uniforms := { deltaTime := 1, particleCount := 1, aspect := 16/9 }

/-- Dynamic record of the C6 witness: a particle at the origin moving fast
enough to overshoot the right and bottom boundaries in one step. -/
def c6Dynamic : DynamicParticle :=
  { pos := ⟨0, 0⟩, vel := ⟨5, -3⟩, rotation := 0, padding := 0 }

/-- Static record of the C6/C7 witnesses: `scale 0.3`, image aspect ratio 2,
so `half_height = 3/20` and `half_width = 3/10`. -/
def cWitnessStatic : StaticParticle :=
  { scale := 3/10, aspect := 2, angularVel := 1, texIndex := 0,
    uvScale := ⟨1, 1⟩, padding := ⟨0, 0⟩ }

/-- Witness for C6 at a concrete step that clamps on both axes. -/
theorem c6_step_keeps_particle_inside_viewport_witness :
    -(cWitnessUniforms.aspect - half_width cWitnessStatic)
        ≤ (computeMainBody cWitnessUniforms c6Dynamic cWitnessStatic).pos.x ∧
    (computeMainBody cWitnessUniforms c6Dynamic cWitnessStatic).pos.x
        ≤ cWitnessUniforms.aspect - half_width cWitnessStatic ∧
    -(1 - half_height cWitnessStatic)
        ≤ (computeMainBody cWitnessUniforms c6Dynamic cWitnessStatic).pos.y ∧
    (computeMainBody cWitnessUniforms c6Dynamic cWitnessStatic).pos.y
        ≤ 1 - half_height cWitnessStatic :=
  c6_step_keeps_particle_inside_viewport cWitnessUniforms c6Dynamic cWitnessStatic
    (by norm_num [half_width, half_height, cWitnessStatic, cWitnessUniforms])
    (by norm_num [half_height, cWitnessStatic])

/- ### Claim C7 -/

/-- C7: boundary reflection is velocity-sign-correct.  When the left-edge
clamp fires, the output horizontal velocity equals `abs` of the input one
(hence is non-negative); when the right-edge clamp fires it equals the
negated `abs` (hence is non-positive); same for bottom/top with the vertical
velocity; and when no clamp fires on an axis, that axis's velocity component
is returned unchanged.  The clamp conditions are exactly the kernel's, on the
integrated position. -/
theorem c7_boundary_reflection_velocity_signs (u : Uniforms)
    (d : DynamicParticle) (s : StaticParticle) :
    ((d.pos.x + d.vel.x * u.deltaTime) - half_width s < -u.aspect →
      (computeMainBody u d s).vel.x = |d.vel.x| ∧
      0 ≤ (computeMainBody u d s).vel.x) ∧
    (¬((d.pos.x + d.vel.x * u.deltaTime) - half_width s < -u.aspect) →
      (d.pos.x + d.vel.x * u.deltaTime) + half_width s > u.aspect →
      (computeMainBody u d s).vel.x = -|d.vel.x| ∧
      (computeMainBody u d s).vel.x ≤ 0) ∧
    (¬((d.pos.x + d.vel.x * u.deltaTime) - half_width s < -u.aspect) →
      ¬((d.pos.x + d.vel.x * u.deltaTime) + half_width s > u.aspect) →
      (computeMainBody u d s).vel.x = d.vel.x) ∧
    ((d.pos.y + d.vel.y * u.deltaTime) - half_height s < -(1 : ℚ) →
      (computeMainBody u d s).vel.y = |d.vel.y| ∧
      0 ≤ (computeMainBody u d s).vel.y) ∧
    (¬((d.pos.y + d.vel.y * u.deltaTime) - half_height s < -(1 : ℚ)) →
      (d.pos.y + d.vel.y * u.deltaTime) + half_height s > (1 : ℚ) →
      (computeMainBody u d s).vel.y = -|d.vel.y| ∧
      (computeMainBody u d s).vel.y ≤ 0) ∧
    (¬((d.pos.y + d.vel.y * u.deltaTime) - half_height s < -(1 : ℚ)) →
      ¬((d.pos.y + d.vel.y * u.deltaTime) + half_height s > (1 : ℚ)) →
      (computeMainBody u d s).vel.y = d.vel.y) := by
  unfold computeMainBody
  dsimp only
  refine ⟨fun h1 => ?_, fun h1 h2 => ?_, fun h1 h2 => ?_,
          fun h1 => ?_, fun h1 h2 => ?_, fun h1 h2 => ?_⟩ <;>
    split_ifs <;> dsimp only <;>
      first
        | exact ⟨rfl, abs_nonneg _⟩
        | exact ⟨rfl, neg_nonpos.mpr (abs_nonneg _)⟩

/-- Dynamic record of the C7 witness: overshoots the left edge, no clamp on
the vertical axis. -/
def c7Dynamic : DynamicParticle :=
  { pos := ⟨0, 0⟩, vel := ⟨-10, 0⟩, rotation := 0, padding := 0 }

/-- Witness for C7 at a concrete step: the left clamp fires and yields
velocity `abs(vel.x)`, and the unclamped vertical velocity is unchanged. -/
theorem c7_boundary_reflection_velocity_signs_witness :
    ((computeMainBody cWitnessUniforms c7Dynamic cWitnessStatic).vel.x
        = |c7Dynamic.vel.x| ∧
      0 ≤ (computeMainBody cWitnessUniforms c7Dynamic cWitnessStatic).vel.x) ∧
    (computeMainBody cWitnessUniforms c7Dynamic cWitnessStatic).vel.y
        = c7Dynamic.vel.y :=
  ⟨(c7_boundary_reflection_velocity_signs cWitnessUniforms c7Dynamic cWitnessStatic).1
      (by norm_num [half_width, half_height, cWitnessStatic, cWitnessUniforms, c7Dynamic]),
   (c7_boundary_reflection_velocity_signs cWitnessUniforms c7Dynamic cWitnessStatic).2.2.2.2.2
      (by norm_num [half_height, cWitnessStatic, c7Dynamic])
      (by norm_num [half_height, cWitnessStatic, c7Dynamic])⟩
